import Mathlib

/-!
Shallow embedding of the agent routing and dispatch core of the
AIDiscoveryCardsFacilitator repository, together with proofs about it.

The embedding covers:
* the prompt-file loader `load_prompt_files` (src/src/utils/cached_loader.py)
  and its memoizing wrapper (the `cl.cache` decorator);
* the agent registry `AgentRegistry.get_agent` (src/src/agents/agent_registry.py);
* the per-variant `get_system_prompts` and the message assembly done by
  `Agent.astream` (src/src/agents/agent.py, single_agent.py, supervisor_agent.py,
  react_agent.py, graph_agent.py);
* the routing node `GraphAgent._start_agent` and the langgraph workflow wiring of
  `GraphAgent.create_chain` (src/src/agents/graph_agent.py);
* the ReAct loop of `ReactAgent` (src/src/agents/react_agent.py);
* the delegation loop of `SupervisorAgent` (src/src/agents/supervisor_agent.py).

File reads are modelled as a function from paths to `Except ReadError String`
(Python raises on failure).  The chat-completion client is external; each model
reply is an input of the embedded step functions.  Python string operations
(`strip`, `lower`, `split`, `replace`, `startswith`, `join`) are re-implemented
structurally over character lists so that all definitions evaluate by kernel
reduction; they agree with CPython on the ASCII inputs used throughout.
-/

deriving instance DecidableEq for Except

namespace Facilitator

/-- The newline character, written via its code point. -/
def nlChar : Char := Char.ofNat 10

/-- Split a character list at every occurrence of `sep`, like Python
`str.split(sep)` for a one-character separator (in particular, the empty
list splits to `[[]]`, and separators at the ends produce empty pieces). -/
def splitOnChar (sep : Char) : List Char → List (List Char)
  | [] => [[]]
  | c :: cs =>
    let r := splitOnChar sep cs
    if c = sep then [] :: r
    else
      match r with
      | [] => [[c]]
      | h :: t => (c :: h) :: t

/-- Python `s.split(chr(10))`. -/
def pySplitNl (s : String) : List String :=
  (splitOnChar nlChar s.data).map List.asString

/-- Python `s.lower()` (ASCII letters). -/
def pyLower (s : String) : String := (s.data.map Char.toLower).asString

/-- Python `s.strip()`: drop whitespace from both ends. -/
def pyStrip (s : String) : String :=
  (((s.data.dropWhile Char.isWhitespace).reverse.dropWhile Char.isWhitespace).reverse).asString

/-- Worker for `pyReplace`; the fuel argument makes the recursion structural,
and is always instantiated with the length of the scanned list, which is
sufficient for the non-empty patterns used in the source. -/
def replaceFuel (pat rep : List Char) : Nat → List Char → List Char
  | _, [] => []
  | 0, rest => rest
  | n + 1, c :: cs =>
    if pat.isPrefixOf (c :: cs) then rep ++ replaceFuel pat rep n ((c :: cs).drop pat.length)
    else c :: replaceFuel pat rep n cs

/-- Python `s.replace(pat, rep)`: replace every occurrence of `pat`. -/
def pyReplace (s pat rep : String) : String :=
  (replaceFuel pat.data rep.data s.data.length s.data).asString

/-- Python `s.startswith(pre)`. -/
def pyStartsWith (s pre : String) : Bool := pre.data.isPrefixOf s.data

/-- Python `sep.join(parts)` with a single-space separator. -/
def pyJoinSpace (parts : List String) : String :=
  (List.intercalate [' '] (parts.map String.data)).asString

/-- A chat message dictionary with `role` and `content` keys, as built by
`load_prompt_files` and consumed by the agents. -/
structure Msg where
  role : String
  content : String
  deriving DecidableEq, Repr

/-- The exception classes caught around document reads in `load_prompt_files`
(src/src/utils/cached_loader.py, the `except (FileNotFoundError,
PermissionError, UnicodeDecodeError)` clause). -/
inductive ReadError where
  | fileNotFound
  | permissionError
  | unicodeDecodeError
  deriving DecidableEq, Repr

/-- A filesystem snapshot: reading a path either yields text or raises. -/
abbrev FS := String → Except ReadError String

/-- The `content_file_paths` argument of `load_prompt_files`: either a single
path string or a frozenset of paths.  A frozenset is represented by the list
of its elements in iteration order (Python iterates a frozenset in a fixed
but hash-determined order; the claims only concern that one order). -/
inductive ContentPaths where
  | single (path : String)
  | many (paths : List String)
  deriving DecidableEq, Repr

/-- Path of the fixed guardrails file read by `load_prompt_files`. -/
def guardrailsPath : String := "prompts/guardrails.md"

/-- Document wrapping used by `load_prompt_files`: the f-string
`"\n<documents>" + document + "</documents>"`. -/
def wrapDocument (doc : String) : String := "\n<documents>" ++ doc ++ "</documents>"

/-- One iteration of the document loop of `load_prompt_files`: a successful
read appends a wrapped system message, a caught read error is skipped. -/
def readDocument (fs : FS) (path : String) : Option Msg :=
  match fs path with
  | .ok doc => some ⟨"system", wrapDocument doc⟩
  | .error _ => none

/-- The list of document paths the loop of `load_prompt_files` iterates over.
`if content_file_paths:` skips falsy values (`None`, the empty string, the
empty frozenset); a single string is wrapped in a one-element list. -/
def pathsOf : Option ContentPaths → List String
  | none => []
  | some (.single p) => if p = "" then [] else [p]
  | some (.many ps) => ps

/-- `load_prompt_files` (src/src/utils/cached_loader.py): read the persona
file, append the guardrails file to it, then append one wrapped system
message per readable document.  Persona or guardrails read failures
propagate; document read failures are caught and skipped. -/
def load_prompt_files (fs : FS) (personaFilePath : String)
    (contentFilePaths : Option ContentPaths) : Except ReadError (List Msg) := do
  let personaText ← fs personaFilePath
  let guardText ← fs guardrailsPath
  let systemPrompt := personaText ++ guardText
  pure (⟨"system", systemPrompt⟩ :: (pathsOf contentFilePaths).filterMap (readDocument fs))

/-- Cache key of the memoized loader: the argument tuple. -/
abbrev LoaderKey := String × Option ContentPaths

/-- The `cl.cache` store backing `load_prompt_files`. -/
abbrev LoaderCache := List (LoaderKey × List Msg)

/-- Lookup in the memoization store. -/
def cacheLookup : LoaderCache → LoaderKey → Option (List Msg)
  | [], _ => none
  | (k, v) :: rest, key => if key = k then some v else cacheLookup rest key

/-- The `cl.cache`-decorated `load_prompt_files`: a hit returns the stored
list unchanged; a miss computes the list from the current filesystem and
stores it; an exception is not cached and propagates. -/
def cached_load_prompt_files (fs : FS) (cache : LoaderCache) (personaFilePath : String)
    (contentFilePaths : Option ContentPaths) : Except ReadError (List Msg × LoaderCache) :=
  match cacheLookup cache (personaFilePath, contentFilePaths) with
  | some v => .ok (v, cache)
  | none =>
    match load_prompt_files fs personaFilePath contentFilePaths with
    | .ok v => .ok (v, ((personaFilePath, contentFilePaths), v) :: cache)
    | .error e => .error e

/-- One entry of the `agents` list of a graph-agent definition: a sub-agent
key together with its trigger-condition text. -/
structure SubAgentEntry where
  agent : String
  condition : String
  deriving DecidableEq, Repr

/-- An agent definition from pages.yaml, as read by the registry.  Field
presence (`"persona" in agent_config` and so on) is modelled by `Option`. -/
structure AgentConfig where
  model : Option String := none
  temperature : Option Rat := none
  persona : Option String := none
  personas : Option (List String) := none
  document : Option String := none
  documents : Option (List String) := none
  condition : Option String := none
  agents : Option (List SubAgentEntry) := none
  workers : Option (List String) := none
  delegation_prompt : Option String := none
  react_persona : Option String := none
  max_iterations : Option Nat := none
  deriving DecidableEq, Repr

/-- Errors raised through the agent layer: `ValueError` for an invalid
definition or a missing sub-agent, the `TypeError` Python raises when an
abstract class is instantiated, workflow build failures raised through
langgraph, and the `KeyError` langgraph raises when a conditional-edge path
function returns a value that is not a key of the path map. -/
inductive ConfigError where
  | invalidAgent (agentKey : String)
  | agentNotFound (agentKey : String)
  | singleAgentAbstract (agentKey : String)
  | graphBuildError
  | supervisorBuildError
  | branchKeyError (key : String)
  deriving DecidableEq, Repr

/-- The agent variants that `AgentRegistry.get_agent`
(src/src/agents/agent_registry.py) constructs, with their constructor
arguments. -/
inductive AgentV where
  | single (agentKey persona model : String) (documents : Option ContentPaths)
      (temperature : Option Rat)
  | graph (agentKey condition model : String) (agents : List SubAgentEntry)
      (temperature : Option Rat)
  | supervisor (agentKey : String) (workers : List String) (delegationPrompt model : String)
      (temperature : Option Rat)
  | react (agentKey persona model : String) (temperature : Option Rat) (maxIterations : Nat)
  deriving DecidableEq, Repr

/-- The registry `_agents` mapping, key to definition. -/
abbrev Registry := List (String × AgentConfig)

/-- `AgentRegistry.get`: dictionary lookup. -/
def registryGet : Registry → String → Option AgentConfig
  | [], _ => none
  | (k, cfg) :: rest, key => if key = k then some cfg else registryGet rest key

/-- The `documents` argument `get_agent` computes for the `SingleAgent`
constructor call (src/src/agents/agent_registry.py lines 125-129): the
`document` string if present, else the frozenset of the `documents` list if
present, else `None`.  The constructor call itself then raises, so this
value never reaches a live agent; it also describes the `documents`
attribute a `SingleAgent` instance would carry. -/
def docArgOf (cfg : AgentConfig) : Option ContentPaths :=
  match cfg.document with
  | some d => some (.single d)
  | none =>
    match cfg.documents with
    | some ds => some (.many ds)
    | none => none

/-- The empty definition dictionary: every field absent.  In Python an empty
dict is falsy, so the guard `if not agent_config: return None` of
`get_agent` treats it like a missing key. -/
def emptyConfig : AgentConfig := {}

/-- `AgentRegistry.get_agent` (src/src/agents/agent_registry.py lines 92-191):
a missing key, or a falsy (empty) definition, returns `None`; otherwise the
variant is chosen by field presence, in order: `persona`, then `condition`,
then `workers` together with `delegation_prompt`, then `react_persona`; a
definition matching none of these raises `ValueError`.  There is no branch
for a `personas` list in this registry.  The `persona` branch calls the
`SingleAgent` constructor, and that call always raises `TypeError`: the
base `Agent` (src/src/agents/agent.py) declares `create_chain` as an
abstract method, and `SingleAgent` (src/src/agents/single_agent.py)
implements `create_agent` but never `create_chain`, so the class cannot be
instantiated; the `except` clause logs and re-raises. -/
def get_agent (reg : Registry) (agentKey : String) : Except ConfigError (Option AgentV) :=
  match registryGet reg agentKey with
  | none => .ok none
  | some cfg =>
    if cfg = emptyConfig then .ok none
    else
      let model := cfg.model.getD "gpt-4o"
      match cfg.persona with
      | some _ => .error (.singleAgentAbstract agentKey)
      | none =>
        match cfg.condition with
        | some c => .ok (some (.graph agentKey c model (cfg.agents.getD []) cfg.temperature))
        | none =>
          match cfg.workers, cfg.delegation_prompt with
          | some ws, some dp => .ok (some (.supervisor agentKey ws dp model cfg.temperature))
          | _, _ =>
            match cfg.react_persona with
            | some rp =>
              .ok (some (.react agentKey rp model cfg.temperature (cfg.max_iterations.getD 3)))
            | none => .error (.invalidAgent agentKey)

/-- The variant tags of the constructed agents. -/
inductive AgentKind where
  | single
  | graph
  | supervisor
  | react
  deriving DecidableEq, Repr

/-- Tag of a constructed agent. -/
def agentKind : AgentV → AgentKind
  | .single .. => .single
  | .graph .. => .graph
  | .supervisor .. => .supervisor
  | .react .. => .react

/-- Modelled from the spec (amended claim C1): the dispatch outcome the
amended claim states for a definition found under `agentKey` — a falsy
definition is treated as absent; a `persona` field means the SingleAgent
constructor is attempted and the abstract-class `TypeError` is raised; then
`condition`, `workers` with `delegation_prompt`, and `react_persona` yield
their variants in that order; anything else is the configuration error. -/
def claimedOutcome (agentKey : String) (cfg : AgentConfig) :
    Except ConfigError (Option AgentKind) :=
  if cfg = emptyConfig then .ok none
  else if cfg.persona.isSome then .error (.singleAgentAbstract agentKey)
  else if cfg.condition.isSome then .ok (some .graph)
  else if cfg.workers.isSome && cfg.delegation_prompt.isSome then .ok (some .supervisor)
  else if cfg.react_persona.isSome then .ok (some .react)
  else .error (.invalidAgent agentKey)

/-- `get_agent` with the constructed agent abstracted to its variant tag. -/
def getAgentKind (reg : Registry) (agentKey : String) : Except ConfigError (Option AgentKind) :=
  (get_agent reg agentKey).map (·.map agentKind)

/-- The fixed ReAct instruction message appended by
`ReactAgent.get_system_prompts` (src/src/agents/react_agent.py). -/
def reactInstructions : Msg :=
  ⟨"system",
    "You are a ReAct (Reasoning and Acting) agent. Follow this pattern:\n\n1. THOUGHT: Think about the user\x27s request and what you need to do\n2. ACTION: Decide on the specific action or response you will provide\n3. OBSERVATION: Reflect on your action and its effectiveness\n\nFormat your response as:\nTHOUGHT: [your reasoning about the request]\nACTION: [your specific response or action]\nOBSERVATION: [reflection on your response]\n\nBe thorough in your reasoning and provide helpful, well-considered responses."⟩

/-- `get_system_prompts` of each variant: `SingleAgent` loads persona and
documents; `GraphAgent` returns the empty list; `SupervisorAgent` returns
its delegation prompt as a single system message; `ReactAgent` loads its
persona (no documents) and appends the fixed ReAct instruction message. -/
def get_system_prompts (fs : FS) : AgentV → Except ReadError (List Msg)
  | .single _ persona _ documents _ => load_prompt_files fs persona documents
  | .graph .. => .ok []
  | .supervisor _ _ delegationPrompt _ _ => .ok [⟨"system", delegationPrompt⟩]
  | .react _ persona _ _ _ => do
    let base ← load_prompt_files fs persona none
    pure (base ++ [reactInstructions])

/-- The message list `Agent.astream` (src/src/agents/agent.py lines 258-290)
hands to the chain: `full_messages = self.get_system_prompts() + messages`. -/
def astream_input (fs : FS) (a : AgentV) (messages : List Msg) : Except ReadError (List Msg) := do
  let sys ← get_system_prompts fs a
  pure (sys ++ messages)

/-- The langgraph terminal sentinel `END`. -/
def langgraphEND : String := "__end__"

/-- The langgraph entry sentinel `START`. -/
def langgraphSTART : String := "__start__"

/-- The `AgentState` of `GraphAgent` workflows: input text, output text,
routing decision and conversation messages. -/
structure GraphState where
  input : String
  output : String
  decision : String
  messages : List Msg
  deriving DecidableEq, Repr

/-- The `response.content` of a chat completion as inspected by
`GraphAgent._start_agent`: a plain string or a list. -/
inductive RespContent where
  | str (s : String)
  | lst (l : List String)
  deriving DecidableEq, Repr

/-- The decision extraction of `GraphAgent._start_agent`
(src/src/agents/graph_agent.py lines 206-215): a string content gives
`content.strip().lower()`; a list content gives the stringified first
element (or the empty string for an empty list), stripped and lowered. -/
def routingDecision : RespContent → String
  | .str s => pyLower (pyStrip s)
  | .lst l => pyLower (pyStrip (l.headD ""))

/-- The input fallback of `_start_agent`: join the contents of the last
(at most) five conversation messages with single spaces. -/
def lastFiveJoined (messages : List Msg) : String :=
  pyJoinSpace ((messages.drop (messages.length - 5)).map (·.content))

/-- `GraphAgent._start_agent` (src/src/agents/graph_agent.py lines 174-225)
as a function of the incoming state and the condition-completion reply:
compute the routing input text, extract the decision from the reply, and
return the updated state dictionary. -/
def start_agent (state : GraphState) (resp : RespContent) : GraphState :=
  let inputText := if state.input = "" then lastFiveJoined state.messages else state.input
  let decision := routingDecision resp
  { decision := decision
    input := inputText
    messages := state.messages
    output := "Agent decision: " ++ decision }

/-- Modelled from the spec: the reply parsing the spec describes for the
routing decision, namely the first line of the reply text, lowercased and
trimmed.  Kept for comparison with `routingDecision`. -/
def specFirstLineDecision (reply : String) : String :=
  pyLower (pyStrip ((pySplitNl reply).headD ""))

/-- Boolean list distinctness, for node-name checks. -/
def namesNodup : List String → Bool
  | [] => true
  | x :: xs => (!xs.contains x) && namesNodup xs

/-- The node names of the workflow built by `GraphAgent.create_chain`:
"start" plus one node per sub-agent entry, named by the sub-agent key. -/
def graphChainNodes (agents : List SubAgentEntry) : List String :=
  "start" :: agents.map (·.agent)

/-- `GraphAgent.create_chain` (src/src/agents/graph_agent.py lines 280-321),
reduced to its build outcome.  `add_node` rejects duplicate and reserved
names; the conditional edge from "start" is declared with the path function
`lambda x: x["decision"]` and the path map `decisions`, whose keys are the
sub-agent keys and whose values are the trigger-condition texts; compiling
the workflow validates that every branch target (path-map value) is a
declared node or `END`, and raises otherwise.  The raised error is caught,
logged and re-raised. -/
def graph_create_chain (agents : List SubAgentEntry) : Except ConfigError Unit :=
  let names := agents.map (·.agent)
  if names.contains "start" || names.contains langgraphSTART || names.contains langgraphEND then
    .error .graphBuildError
  else if !namesNodup names then .error .graphBuildError
  else if agents.all (fun e =>
      (graphChainNodes agents).contains e.condition || e.condition = langgraphEND) then
    .ok ()
  else .error .graphBuildError

/-- The path-map lookup of the conditional edge of `GraphAgent.create_chain`:
the decision value is looked up among the path-map keys (the sub-agent
keys); the associated value (the condition text) is the destination node. -/
def graphPathMapLookup (agents : List SubAgentEntry) (decision : String) : Option String :=
  (agents.find? (fun e => e.agent = decision)).map (·.condition)

/-- `GraphAgent._agent_node` (src/src/agents/graph_agent.py lines 112-141):
resolve the agent named by the state decision in the registry and delegate
to it; a missing key raises `ValueError`, a construction failure inside
`get_agent` propagates.  The result is the sub-agent whose chain is
invoked with its own system prompts plus the conversation. -/
def agent_node (reg : Registry) (state : GraphState) : Except ConfigError AgentV :=
  match get_agent reg state.decision with
  | .error e => .error e
  | .ok none => .error (.agentNotFound state.decision)
  | .ok (some a) => .ok a

/-- One `respond` turn of a `GraphAgent`: build the chain (propagating build
failures), run the start node on the condition reply, route its decision
through the conditional-edge path map, and run the selected agent node.
A decision absent from the path map is a langgraph routing error, modelled
as `agentNotFound`; a path-map hit routes to the node named by the stored
value, which executes `_agent_node` on the state (the node reads the
decision from the state, not its own name). -/
def graph_respond (reg : Registry) (agents : List SubAgentEntry) (state : GraphState)
    (resp : RespContent) : Except ConfigError AgentV :=
  match graph_create_chain agents with
  | .error e => .error e
  | .ok _ =>
    let st1 := start_agent state resp
    match graphPathMapLookup agents st1.decision with
    | none => .error (.agentNotFound st1.decision)
    | some dest =>
      if (graphChainNodes agents).contains dest then agent_node reg st1
      else .error .graphBuildError

/-- The `ReactState` of the ReAct workflow: conversation messages, latest
thought, decided action, observation, and the iteration counter.  Optional
fields absent from the initial state are `none`, matching the
`state.get(..., default)` reads in the source. -/
structure ReactAgentState where
  messages : List Msg
  thought : Option String
  action : Option String
  observation : Option String
  iterationCount : Nat
  deriving DecidableEq, Repr

/-- Thought extraction of `ReactAgent._think_node`: the first line starting
with "THOUGHT:" (with the marker removed everywhere and the line stripped),
or the empty string when no line matches. -/
def extractThought (content : String) : String :=
  match (pySplitNl content).find? (fun l => pyStartsWith l "THOUGHT:") with
  | some l => pyStrip (pyReplace l "THOUGHT:" "")
  | none => ""

/-- `ReactAgent._think_node` (src/src/agents/react_agent.py lines 158-205):
record the extracted thought, increment the iteration counter, and pass
messages, action and observation through unchanged. -/
def think_node (reply : String) (s : ReactAgentState) : ReactAgentState :=
  { s with thought := some (extractThought reply), iterationCount := s.iterationCount + 1 }

/-- `ReactAgent._should_continue` (src/src/agents/react_agent.py lines
137-156): move to "respond" once the iteration counter reaches
`max_iterations` or an action is present, else keep thinking. -/
def react_should_continue (maxIterations : Nat) (s : ReactAgentState) : String :=
  if maxIterations ≤ s.iterationCount || s.action.isSome then "respond" else "think"

/-- The line parsing of `ReactAgent._respond_node`: the last line starting
with each of the three markers wins; a missing marker leaves the empty
string. -/
def parseReactReply (reply : String) : String × String × String :=
  (pySplitNl reply).foldl
    (fun acc line =>
      if pyStartsWith line "THOUGHT:" then
        (pyStrip (pyReplace line "THOUGHT:" ""), acc.2.1, acc.2.2)
      else if pyStartsWith line "ACTION:" then
        (acc.1, pyStrip (pyReplace line "ACTION:" ""), acc.2.2)
      else if pyStartsWith line "OBSERVATION:" then
        (acc.1, acc.2.1, pyStrip (pyReplace line "OBSERVATION:" ""))
      else acc)
    ("", "", "")

/-- `ReactAgent._respond_node` (src/src/agents/react_agent.py lines 207-266):
parse the final completion, compose the structured reply, and append it to
the conversation as the assistant turn. -/
def respond_node (reply : String) (s : ReactAgentState) : ReactAgentState :=
  let parsed := parseReactReply reply
  let finalResponse :=
    "**Reasoning:** " ++ parsed.1 ++ "\n\n**Response:** " ++ parsed.2.1 ++
      "\n\n**Reflection:** " ++ parsed.2.2
  { messages := s.messages ++ [⟨"assistant", finalResponse⟩]
    thought := some parsed.1
    action := some parsed.2.1
    observation := some parsed.2.2
    iterationCount := s.iterationCount }

/-- The think cycle of the compiled ReAct workflow
(src/src/agents/react_agent.py lines 268-309): the entry point is the
"think" node, and after every think step the conditional edge re-enters
"think" or moves on to "respond".  `thinkReplies i` is the completion reply
of the think step that starts at iteration counter `i`.  Structural fuel
bounds the recursion; any fuel above `max_iterations` is sufficient.
Returns the state at the moment "respond" is entered together with the
number of executed think steps. -/
def react_loop (maxIterations : Nat) (thinkReplies : Nat → String) :
    Nat → ReactAgentState → Option (ReactAgentState × Nat)
  | 0, _ => none
  | fuel + 1, s =>
    let s1 := think_node (thinkReplies s.iterationCount) s
    if react_should_continue maxIterations s1 = "respond" then some (s1, 1)
    else
      match react_loop maxIterations thinkReplies fuel s1 with
      | some (sf, n) => some (sf, n + 1)
      | none => none

/-- The initial `ReactState` of a turn: `astream` invokes the chain with the
messages only, so the optional fields are absent and the counter reads 0. -/
def react_initial_state (messages : List Msg) : ReactAgentState :=
  ⟨messages, none, none, none, 0⟩

/-- One full run of the ReAct workflow on a turn: the think cycle followed by
the single "respond" node, which leads to `END`.  Returns the final state
and the number of executed think steps. -/
def react_run (maxIterations : Nat) (thinkReplies : Nat → String) (respondReply : String)
    (messages : List Msg) (fuel : Nat) : Option (ReactAgentState × Nat) :=
  match react_loop maxIterations thinkReplies fuel (react_initial_state messages) with
  | some (s, thinkCount) => some (respond_node respondReply s, thinkCount)
  | none => none

/-- The number of think steps a turn executes. -/
def react_think_count (maxIterations : Nat) (thinkReplies : Nat → String)
    (messages : List Msg) (fuel : Nat) : Option Nat :=
  (react_loop maxIterations thinkReplies fuel (react_initial_state messages)).map (·.2)

/-- Worker parsing of `SupervisorAgent._supervisor_node`
(src/src/agents/supervisor_agent.py lines 168-179): strip the reply, split
it into lines, and take the last line starting with "WORKER:" (marker
removed everywhere, stripped); the default is "END". -/
def parseWorker (replyContent : String) : String :=
  (pySplitNl (pyStrip replyContent)).foldl
    (fun acc line =>
      if pyStartsWith line "WORKER:" then pyStrip (pyReplace line "WORKER:" "") else acc)
    "END"

/-- Reason parsing of `_supervisor_node`, defaulting to the fixed text. -/
def parseReason (replyContent : String) : String :=
  (pySplitNl (pyStrip replyContent)).foldl
    (fun acc line =>
      if pyStartsWith line "REASON:" then pyStrip (pyReplace line "REASON:" "") else acc)
    "No specific delegation needed"

/-- The inline error text of `SupervisorAgent._worker_node` for a worker key
the registry does not know. -/
def workerErrorMsg (workerKey : String) : String :=
  "Error: Worker agent \x27" ++ workerKey ++ "\x27 not available."

/-- The state delta returned by `_worker_node`: updated messages, the worker
response text, and the `next_worker` reset when present (the missing-agent
branch returns no `next_worker` key). -/
structure WorkerResult where
  messages : List Msg
  workerResponse : String
  nextWorkerUpdate : Option String
  deriving DecidableEq, Repr

/-- `SupervisorAgent._worker_node` (src/src/agents/supervisor_agent.py lines
189-236): resolve the decided worker in the registry.  A key the registry
does not contain yields the inline error appended as the assistant turn and
a normal return; a `ValueError` raised inside `get_agent` (a key that is
present but whose definition is invalid) propagates; otherwise the worker
chain reply is appended as the assistant turn and `next_worker` resets to
"END". -/
def worker_node (reg : Registry) (workerKey : String) (messages : List Msg)
    (workerReply : String) : Except ConfigError WorkerResult :=
  match get_agent reg workerKey with
  | .error e => .error e
  | .ok none => .ok ⟨messages ++ [⟨"assistant", workerErrorMsg workerKey⟩],
      workerErrorMsg workerKey, none⟩
  | .ok (some _) => .ok ⟨messages ++ [⟨"assistant", workerReply⟩], workerReply, some "END"⟩

/-- `SupervisorAgent.create_chain` (src/src/agents/supervisor_agent.py lines
238-278), reduced to its build outcome: `add_node` rejects a worker named
"supervisor" (already present), the reserved langgraph names, and
duplicate worker names. -/
def supervisor_create_chain (workers : List String) : Except ConfigError Unit :=
  if workers.contains "supervisor" || workers.contains langgraphSTART ||
      workers.contains langgraphEND then
    .error .supervisorBuildError
  else if !namesNodup workers then .error .supervisorBuildError
  else .ok ()

/-- `SupervisorAgent._should_continue` (src/src/agents/supervisor_agent.py
lines 112-129): the decided worker when it is in the worker list, the
langgraph `END` sentinel otherwise. -/
def supShouldContinue (workers : List String) (nextWorker : String) : String :=
  if workers.contains nextWorker then nextWorker else langgraphEND

/-- Where a conditional-edge branch resolution can land: a node, the graph
terminal, or the `KeyError` langgraph raises when the path-function output
is not a key of the path map (`self.ends[r]`). -/
inductive RouteResult where
  | node (name : String)
  | terminal
  | keyError (key : String)
  deriving DecidableEq, Repr

/-- The conditional-edge path map of `SupervisorAgent.create_chain`: the
dictionary union `{worker: worker} | {"END": END}`.  Its keys are the
worker names and the literal string "END" (mapping to the terminal, also
when "END" is listed as a worker); looking up any other value — in
particular the `END` sentinel string that `_should_continue` actually
returns — raises `KeyError`. -/
def supPathMapLookup (workers : List String) (r : String) : RouteResult :=
  if r = "END" then .terminal
  else if workers.contains r then .node r
  else .keyError r

/-- The routing after a supervisor step: `_should_continue` composed with the
path-map lookup. -/
def supervisor_route (workers : List String) (nextWorker : String) : RouteResult :=
  supPathMapLookup workers (supShouldContinue workers nextWorker)

/-- The supervisor delegation cycle: each pass runs `_supervisor_node` on the
delegation reply, routes its parsed worker, and on a delegation runs
`_worker_node` (whose reply is appended to the conversation) before looping
back to the supervisor.  `delegationReplies i` and `workerReplies i` are the
completion replies of pass `i`.  Returns the number of worker delegations
and the final conversation, or the error a pass raises (a worker
construction failure, or the `KeyError` of a branch resolution whose value
is not a path-map key); `none` means the fuel ran out (the source loop has
no bound of its own). -/
def supervisor_loop (reg : Registry) (workers : List String)
    (delegationReplies workerReplies : Nat → String) :
    Nat → Nat → List Msg → Nat → Option (Except ConfigError (Nat × List Msg))
  | 0, _, _, _ => none
  | fuel + 1, i, msgs, delegations =>
    let nextWorker := parseWorker (delegationReplies i)
    match supervisor_route workers nextWorker with
    | .terminal => some (.ok (delegations, msgs))
    | .keyError k => some (.error (.branchKeyError k))
    | .node w =>
      match worker_node reg w msgs (workerReplies i) with
      | .error e => some (.error e)
      | .ok res => supervisor_loop reg workers delegationReplies workerReplies
          fuel (i + 1) res.messages (delegations + 1)

/-- One `respond` turn of a `SupervisorAgent`: build the chain, then run the
delegation cycle from the supervisor entry point. -/
def supervisor_turn (reg : Registry) (workers : List String)
    (delegationReplies workerReplies : Nat → String) (messages : List Msg) (fuel : Nat) :
    Option (Except ConfigError (Nat × List Msg)) :=
  match supervisor_create_chain workers with
  | .error e => some (.error e)
  | .ok _ => supervisor_loop reg workers delegationReplies workerReplies fuel 0 messages 0

/-! Concrete instances used to evaluate the development on closed inputs. -/

/-- A definition that carries only a `personas` list. -/
def personasOnlyConfig : AgentConfig := { personas := some ["expert1.md", "expert2.md"] }

/-- A registry holding only the `personas`-only definition. -/
def personasRegistry : Registry := [("panel", personasOnlyConfig)]

/-- A definition with a plain persona, as in the spec scenario. -/
def soloConfig : AgentConfig := { persona := some "facilitator.md" }

/-- A one-entry registry with the persona definition. -/
def soloRegistry : Registry := [("facilitator", soloConfig)]

/-- A snapshot with a persona file, the guardrails file and one document. -/
def c2FS : FS := fun path =>
  if path = "persona.md" then .ok "PERSONA"
  else if path = guardrailsPath then .ok "GUARD"
  else if path = "doc.md" then .ok "DOC"
  else .error .fileNotFound

/-- A single-agent definition with a persona and a one-document list. -/
def c2Config : AgentConfig := { persona := some "persona.md", documents := some ["doc.md"] }

/-- A one-entry registry with the single-agent definition. -/
def c2Registry : Registry := [("card", c2Config)]

/-- A supervisor agent with one worker, used on closed inputs. -/
def c8Agent : AgentV := .supervisor "coordinator" ["researcher"] "Delegate wisely." "gpt-4o" none

/-- A snapshot on which every read fails. -/
def emptyFS : FS := fun _ => .error .fileNotFound

/-- A snapshot with a persona file and the guardrails file. -/
def c9FS : FS := fun path =>
  if path = "facilitator.md" then .ok "You facilitate."
  else if path = guardrailsPath then .ok " Stay on topic."
  else .error .fileNotFound

/-- The message list the loader produces from `c9FS`. -/
def c9Result : List Msg := [⟨"system", "You facilitate. Stay on topic."⟩]

/-- The memoization store after the first load from `c9FS`. -/
def c9Cache : LoaderCache := [(("facilitator.md", none), c9Result)]

/-- A snapshot with one readable document and one missing document. -/
def c10FS : FS := fun path =>
  if path = "persona.md" then .ok "P"
  else if path = guardrailsPath then .ok "G"
  else if path = "good.md" then .ok "D"
  else .error .fileNotFound

/-- A truthy definition (it has a key) with no recognized field. -/
def c7Config : AgentConfig := { model := some "gpt-4o" }

/-- A registry whose only entry is present and truthy but invalid. -/
def c7Registry : Registry := [("broken", c7Config)]

/-- A graph-agent definition with a routing condition. -/
def routerConfig : AgentConfig := { condition := some "route by topic" }

/-- A one-entry registry with the graph-agent definition. -/
def routerRegistry : Registry := [("router", routerConfig)]

/-- The sub-agent list of the spec scenario for the conditional router. -/
def c6Agents : List SubAgentEntry := [⟨"a", "topic A"⟩, ⟨"b", "topic B"⟩]

/-- A constant think-reply stream. -/
def constThinkReplies : Nat → String := fun _ => "THOUGHT: initial analysis"

/-! Claim C1: registry dispatch. -/

/-- C1 (amended): for every key present in the definition map, `get_agent`
inspects field presence in the fixed order persona, condition, workers
together with delegation prompt, react persona; the persona branch attempts
the SingleAgent construction and always raises the abstract-class
`TypeError` (SingleAgent never implements `create_chain`); the other three
branches yield their variants; a definition matching none of these (in
particular one carrying only a `personas` list) raises a configuration
error instead of defaulting; and a falsy (empty) definition is treated like
a missing key, returning `None`. -/
theorem c1_get_agent_dispatch (reg : Registry) (agentKey : String) (cfg : AgentConfig)
    (h : registryGet reg agentKey = some cfg) :
    getAgentKind reg agentKey = claimedOutcome agentKey cfg := by
  unfold getAgentKind get_agent claimedOutcome
  rw [h]
  by_cases hemp : cfg = emptyConfig
  · simp [hemp, Except.map]
  · simp only [if_neg hemp]
    rcases cfg with ⟨m, t, persona, personas, document, documents, condition, agents, workers,
      dp, rp, mi⟩
    cases persona <;> cases condition <;> cases workers <;> cases dp <;> cases rp <;>
      simp [agentKind, Except.map]

/-- C1 witness: a condition definition dispatches to the graph variant. -/
theorem c1_get_agent_dispatch_witness :
    getAgentKind routerRegistry "router" = Except.ok (some AgentKind.graph) := by
  have h := c1_get_agent_dispatch routerRegistry "router" routerConfig (by decide)
  simpa [claimedOutcome, routerConfig, emptyConfig] using h

/-- C1 counterexample: the claim says a `personas` list yields a MultiAgent
and a `persona` field a SingleAgent; a definition carrying only `personas`
instead raises the configuration error (this registry has no MultiAgent
branch), and a persona definition raises the abstract-class `TypeError`
instead of producing a SingleAgent. -/
theorem c1_counterexample_personas_rejected :
    get_agent personasRegistry "panel" = Except.error (ConfigError.invalidAgent "panel")
    ∧ get_agent soloRegistry "facilitator" =
      Except.error (ConfigError.singleAgentAbstract "facilitator") := by
  refine ⟨by decide, by decide⟩

/-! Claim C7: supervisor worker resolution failures. -/

/-- C7 (amended): when the decided worker key is absent from the registry,
`_worker_node` appends the inline error message as the assistant turn and
returns normally; a key that is present but whose definition is invalid
instead propagates the construction error (see the counterexample). -/
theorem c7_missing_worker_inline_error (reg : Registry) (workerKey : String)
    (messages : List Msg) (workerReply : String) (h : registryGet reg workerKey = none) :
    worker_node reg workerKey messages workerReply =
      .ok ⟨messages ++ [⟨"assistant", workerErrorMsg workerKey⟩], workerErrorMsg workerKey,
        none⟩ := by
  unfold worker_node get_agent
  rw [h]

/-- C7 witness: an unknown worker key yields the inline error turn. -/
theorem c7_missing_worker_inline_error_witness :
    worker_node [] "ghost" [⟨"user", "hi"⟩] "unused" =
      .ok ⟨[⟨"user", "hi"⟩] ++ [⟨"assistant", workerErrorMsg "ghost"⟩], workerErrorMsg "ghost",
        none⟩ :=
  c7_missing_worker_inline_error [] "ghost" [⟨"user", "hi"⟩] "unused" rfl

/-- C7 counterexample: the claim says a worker key that cannot be resolved to
an agent never propagates an exception; for a key that is present in the
registry with a truthy but invalid definition, `get_agent` raises and
`_worker_node` propagates instead of appending the inline error. -/
theorem c7_counterexample_invalid_worker_raises :
    worker_node c7Registry "broken" [] "reply" =
      Except.error (ConfigError.invalidAgent "broken") := by
  decide

/-! Claim C8: astream message assembly. -/

/-- C8: the message list `astream` hands to the chain is exactly the agent
system prompts followed by the accumulated conversation turns in their
original order: the prompts are an unmodified prefix and dropping them
recovers the conversation unchanged. -/
theorem c8_astream_system_prefix (fs : FS) (a : AgentV) (messages sys : List Msg)
    (h : get_system_prompts fs a = .ok sys) :
    astream_input fs a messages = .ok (sys ++ messages)
    ∧ (sys ++ messages).take sys.length = sys
    ∧ (sys ++ messages).drop sys.length = messages := by
  refine ⟨?_, ?_, ?_⟩
  · simp [astream_input, h]
  · simp
  · simp

/-- C8 witness: a supervisor agent prepends its delegation prompt to a turn. -/
theorem c8_astream_system_prefix_witness :
    astream_input emptyFS c8Agent [⟨"user", "hi"⟩] =
      .ok (([⟨"system", "Delegate wisely."⟩] : List Msg) ++ [⟨"user", "hi"⟩])
    ∧ (([⟨"system", "Delegate wisely."⟩] : List Msg) ++ ([⟨"user", "hi"⟩] : List Msg)).take
        ([⟨"system", "Delegate wisely."⟩] : List Msg).length =
        ([⟨"system", "Delegate wisely."⟩] : List Msg)
    ∧ (([⟨"system", "Delegate wisely."⟩] : List Msg) ++ ([⟨"user", "hi"⟩] : List Msg)).drop
        ([⟨"system", "Delegate wisely."⟩] : List Msg).length = ([⟨"user", "hi"⟩] : List Msg) :=
  c8_astream_system_prefix emptyFS c8Agent [⟨"user", "hi"⟩] [⟨"system", "Delegate wisely."⟩] rfl

/-! Claim C9: loader memoization. -/

/-- C9: a second call of the memoized loader with the same argument pair is a
cache hit: it returns the byte-identical message list of the first call and
leaves the store unchanged, independently of the filesystem state at the
time of the second call. -/
theorem c9_cached_loader_idempotent (fs fs2 : FS) (cache : LoaderCache) (personaFilePath : String)
    (contentFilePaths : Option ContentPaths) (r : List Msg) (c : LoaderCache)
    (h : cached_load_prompt_files fs cache personaFilePath contentFilePaths = .ok (r, c)) :
    cached_load_prompt_files fs2 c personaFilePath contentFilePaths = .ok (r, c) := by
  unfold cached_load_prompt_files at h ⊢
  cases h1 : cacheLookup cache (personaFilePath, contentFilePaths) with
  | some v =>
    rw [h1] at h
    simp only [Except.ok.injEq, Prod.mk.injEq] at h
    obtain ⟨hr, hc⟩ := h
    subst hr
    subst hc
    rw [h1]
  | none =>
    rw [h1] at h
    cases h2 : load_prompt_files fs personaFilePath contentFilePaths with
    | ok v =>
      rw [h2] at h
      simp only [Except.ok.injEq, Prod.mk.injEq] at h
      obtain ⟨hr, hc⟩ := h
      subst hr
      subst hc
      simp [cacheLookup]
    | error e =>
      rw [h2] at h
      simp at h

/-- C9 witness: a cache hit on a concrete populated store. -/
theorem c9_cached_loader_idempotent_witness :
    cached_load_prompt_files c9FS c9Cache "facilitator.md" none = Except.ok (c9Result, c9Cache) :=
  c9_cached_loader_idempotent c9FS c9FS [] "facilitator.md" none c9Result c9Cache (by decide)

/-! Claim C10: loader error handling. -/

/-- The document-loop output is the wrapped content of exactly the readable
documents, in path order. -/
lemma filterMap_readDocument_eq (fs : FS) (paths : List String) :
    paths.filterMap (readDocument fs) =
      (paths.filterMap (fun q => (fs q).toOption)).map
        (fun t => (⟨"system", wrapDocument t⟩ : Msg)) := by
  induction paths with
  | nil => simp
  | cons p ps ih =>
    cases hp : fs p with
    | ok t => simp [readDocument, hp, Except.toOption, ih]
    | error e => simp [readDocument, hp, Except.toOption, ih]

/-- C10: when the persona and guardrails files read successfully,
`load_prompt_files` returns normally whatever happens to the document
reads: the result is the persona system message followed by the wrapped
content of every successfully read document, failing documents silently
skipped; a persona read failure, or a guardrails read failure, propagates
as the raised exception. -/
theorem c10_loader_error_handling :
    (∀ (fs : FS) (personaFilePath : String) (docs : Option ContentPaths)
        (personaText guardText : String),
      fs personaFilePath = .ok personaText → fs guardrailsPath = .ok guardText →
      load_prompt_files fs personaFilePath docs =
        .ok (⟨"system", personaText ++ guardText⟩ ::
          ((pathsOf docs).filterMap (fun q => (fs q).toOption)).map
            (fun t => ⟨"system", wrapDocument t⟩)))
    ∧ (∀ (fs : FS) (personaFilePath : String) (docs : Option ContentPaths) (e : ReadError),
      fs personaFilePath = .error e → load_prompt_files fs personaFilePath docs = .error e)
    ∧ (∀ (fs : FS) (personaFilePath : String) (docs : Option ContentPaths)
        (personaText : String) (e : ReadError),
      fs personaFilePath = .ok personaText → fs guardrailsPath = .error e →
      load_prompt_files fs personaFilePath docs = .error e) := by
  refine ⟨?_, ?_, ?_⟩
  · intro fs p docs pt gt hp hg
    simp [load_prompt_files, hp, hg, filterMap_readDocument_eq, Bind.bind, Except.bind, Pure.pure, Except.pure]
  · intro fs p docs e hp
    simp [load_prompt_files, hp, Bind.bind, Except.bind, Pure.pure, Except.pure]
  · intro fs p docs pt e hp hg
    simp [load_prompt_files, hp, hg, Bind.bind, Except.bind, Pure.pure, Except.pure]

/-- C10 witness: one readable and one missing document on a concrete
snapshot, plus a failing persona read. -/
theorem c10_loader_error_handling_witness :
    load_prompt_files c10FS "persona.md" (some (.many ["good.md", "missing.md"])) =
      .ok (⟨"system", "P" ++ "G"⟩ ::
        ((pathsOf (some (.many ["good.md", "missing.md"]))).filterMap
          (fun q => (c10FS q).toOption)).map (fun t => ⟨"system", wrapDocument t⟩))
    ∧ load_prompt_files c10FS "absent.md" none = .error .fileNotFound :=
  ⟨c10_loader_error_handling.1 c10FS "persona.md" (some (.many ["good.md", "missing.md"]))
      "P" "G" (by decide) (by decide),
    c10_loader_error_handling.2.1 c10FS "absent.md" none .fileNotFound (by decide)⟩

/-! Claim C2: single-agent system prompts. -/

/-- When every document read succeeds, the document loop keeps all documents
in path order. -/
lemma filterMap_readDocument_of_ok (fs : FS) :
    ∀ (paths texts : List String), paths.map fs = texts.map Except.ok →
      paths.filterMap (readDocument fs) =
        texts.map (fun t => (⟨"system", wrapDocument t⟩ : Msg)) := by
  intro paths
  induction paths with
  | nil =>
    intro texts h
    cases texts with
    | nil => simp
    | cons t ts => simp at h
  | cons p ps ih =>
    intro texts h
    cases texts with
    | nil => simp at h
    | cons t ts =>
      simp only [List.map_cons, List.cons.injEq] at h
      obtain ⟨h1, h2⟩ := h
      simp [readDocument, h1, ih ts h2]

/-- C2 (amended): no SingleAgent can be built from a persona definition —
`get_agent` raises the abstract-class `TypeError` on every such definition;
the message list the claim describes is produced by `load_prompt_files`,
the function `SingleAgent.get_system_prompts` delegates to: the persona
system message (persona content with the guardrails file content appended,
persona content first) followed by one system message per document, each
carrying the document content wrapped in the documents tags (after a
leading newline), in the same order as the document list. -/
theorem c2_single_agent_system_prompts :
    (∀ (fs : FS) (agentKey personaPath model : String) (temp : Option Rat)
        (docPaths : List String) (personaText guardText : String) (docTexts : List String),
      fs personaPath = .ok personaText → fs guardrailsPath = .ok guardText →
      docPaths.map fs = docTexts.map Except.ok →
      get_system_prompts fs (.single agentKey personaPath model (some (.many docPaths)) temp) =
        .ok (⟨"system", personaText ++ guardText⟩ ::
          docTexts.map (fun t => ⟨"system", wrapDocument t⟩)))
    ∧ (∀ (reg : Registry) (agentKey : String) (cfg : AgentConfig) (personaPath : String),
      registryGet reg agentKey = some cfg → cfg.persona = some personaPath →
      get_agent reg agentKey = .error (.singleAgentAbstract agentKey)) := by
  constructor
  · intro fs agentKey personaPath model temp docPaths personaText guardText docTexts hp hg
      htexts
    simp [get_system_prompts, load_prompt_files, hp, hg, pathsOf, Bind.bind, Except.bind,
      Pure.pure, Except.pure, filterMap_readDocument_of_ok fs docPaths docTexts htexts]
  · intro reg agentKey cfg personaPath hreg hpersona
    have hemp : ¬(cfg = emptyConfig) := by
      intro he
      rw [he] at hpersona
      simp [emptyConfig] at hpersona
    unfold get_agent
    rw [hreg]
    simp only [if_neg hemp, hpersona]

/-- C2 witness: a concrete persona, guardrails and one document, and the
registry failure on the matching definition. -/
theorem c2_single_agent_system_prompts_witness :
    get_system_prompts c2FS (.single "card" "persona.md" "gpt-4o" (some (.many ["doc.md"]))
        none) =
      .ok (⟨"system", "PERSONA" ++ "GUARD"⟩ ::
        ["DOC"].map (fun t => ⟨"system", wrapDocument t⟩))
    ∧ get_agent c2Registry "card" = .error (.singleAgentAbstract "card") :=
  ⟨c2_single_agent_system_prompts.1 c2FS "card" "persona.md" "gpt-4o" none ["doc.md"]
      "PERSONA" "GUARD" ["DOC"] (by decide) (by decide) (by decide),
    c2_single_agent_system_prompts.2 c2Registry "card" c2Config "persona.md" (by decide)
      (by decide)⟩

/-- C2 counterexample: the claim speaks of the SingleAgent built from (P, D)
by the registry and says the first element of its prompt list is the
persona content.  On the matching definition the registry raises the
abstract-class `TypeError` — no SingleAgent is ever built — and even the
loader output the claim describes starts with PERSONAGUARD (guardrails
appended), not with the bare persona content PERSONA. -/
theorem c2_counterexample_guardrails_appended :
    get_agent c2Registry "card" = Except.error (ConfigError.singleAgentAbstract "card")
    ∧ load_prompt_files c2FS "persona.md" (some (.many ["doc.md"])) =
      Except.ok [⟨"system", "PERSONAGUARD"⟩, ⟨"system", "\n<documents>DOC</documents>"⟩]
    ∧ ("PERSONAGUARD" : String) ≠ "PERSONA" := by
  refine ⟨by decide, by decide, by decide⟩

/-! Claim C3: routing decision extraction. -/

/-- Rebuilding a string from its character list is the identity. -/
lemma asString_data (s : String) : s.data.asString = s := rfl

/-- A character list with no occurrence of the separator splits into the
single piece itself. -/
lemma splitOnChar_of_not_contains (sep : Char) :
    ∀ (l : List Char), l.contains sep = false → splitOnChar sep l = [l] := by
  intro l
  induction l with
  | nil => intro _; rfl
  | cons c cs ih =>
    intro h
    simp only [List.contains_cons, Bool.or_eq_false_iff, beq_eq_false_iff_ne, ne_eq] at h
    obtain ⟨h1, h2⟩ := h
    have hcs := ih (by simpa using h2)
    simp only [splitOnChar, hcs]
    rw [if_neg (by exact fun hc => h1 hc.symm)]

/-- C3 (amended): the routing decision `_start_agent` extracts from a
string-content reply is the entire reply text, stripped of surrounding
whitespace and lowercased — not only the first line; the two readings agree
exactly on replies that contain no newline. -/
theorem c3_routing_decision_whole_reply (state : GraphState) (s : String) :
    (start_agent state (RespContent.str s)).decision = pyLower (pyStrip s)
    ∧ (s.data.contains nlChar = false →
        (start_agent state (RespContent.str s)).decision = specFirstLineDecision s) := by
  constructor
  · rfl
  · intro h
    have hsplit : pySplitNl s = [s] := by
      have := splitOnChar_of_not_contains nlChar s.data h
      simp [pySplitNl, this, asString_data]
    simp [start_agent, routingDecision, specFirstLineDecision, hsplit]

/-- C3 witness: a single-line reply, where the code extraction and the
first-line reading coincide. -/
theorem c3_routing_decision_whole_reply_witness :
    (start_agent ⟨"what topic", "", "", []⟩ (RespContent.str " FACILITATOR ")).decision =
      pyLower (pyStrip " FACILITATOR ")
    ∧ (start_agent ⟨"what topic", "", "", []⟩ (RespContent.str " FACILITATOR ")).decision =
      specFirstLineDecision " FACILITATOR " :=
  ⟨(c3_routing_decision_whole_reply ⟨"what topic", "", "", []⟩ " FACILITATOR ").1,
    (c3_routing_decision_whole_reply ⟨"what topic", "", "", []⟩ " FACILITATOR ").2 (by decide)⟩

/-- C3 counterexample: on a two-line reply the code keeps the whole text
(stripped, lowercased) as the decision, while the claim says the decision
is the first line; the two differ. -/
theorem c3_counterexample_multiline_reply :
    (start_agent ⟨"topic question", "", "", []⟩
        (RespContent.str "Agent_A\nbecause topic A")).decision = "agent_a\nbecause topic a"
    ∧ specFirstLineDecision "Agent_A\nbecause topic A" = "agent_a"
    ∧ ("agent_a\nbecause topic a" : String) ≠ "agent_a" := by
  refine ⟨by decide, by decide, by decide⟩

/-! Claim C4: ReAct iteration bound. -/

/-- The think cycle starting at counter `c` with no action pending executes
exactly one think step when `max_iterations` is at most `c + 1` and
`max_iterations - c` think steps otherwise, and leaves the conversation
untouched. -/
lemma react_loop_spec (maxIterations : Nat) (thinkReplies : Nat → String) :
    ∀ (fuel : Nat) (s : ReactAgentState), s.action = none →
      maxIterations ≤ s.iterationCount + fuel → 1 ≤ fuel →
      ∃ sf, react_loop maxIterations thinkReplies fuel s =
          some (sf, if maxIterations ≤ s.iterationCount + 1 then 1
            else maxIterations - s.iterationCount)
        ∧ sf.messages = s.messages := by
  intro fuel
  induction fuel with
  | zero => intro s _ _ h3; omega
  | succ f ih =>
    intro s ha hle _
    by_cases hc : maxIterations ≤ s.iterationCount + 1
    · refine ⟨think_node (thinkReplies s.iterationCount) s, ?_, rfl⟩
      have hsc : react_should_continue maxIterations
          (think_node (thinkReplies s.iterationCount) s) = "respond" := by
        simp [react_should_continue, think_node, ha, hc]
      simp [react_loop, hsc, hc]
    · have hsc : react_should_continue maxIterations
          (think_node (thinkReplies s.iterationCount) s) = "think" := by
        simp [react_should_continue, think_node, ha, hc]
      have hs1a : (think_node (thinkReplies s.iterationCount) s).action = none := by
        simp [think_node, ha]
      have hs1c : (think_node (thinkReplies s.iterationCount) s).iterationCount =
          s.iterationCount + 1 := by
        simp [think_node]
      obtain ⟨sf, hrec, hmsg⟩ := ih (think_node (thinkReplies s.iterationCount) s) hs1a
        (by rw [hs1c]; omega) (by omega)
      rw [hs1c] at hrec
      refine ⟨sf, ?_, by rw [hmsg]; simp [think_node]⟩
      have harith : (if maxIterations ≤ s.iterationCount + 1 + 1 then 1
          else maxIterations - (s.iterationCount + 1)) + 1 =
          maxIterations - s.iterationCount := by
        split <;> omega
      simp [react_loop, hsc, hrec, hc, harith]

/-- C4 (amended): a turn of a ReactAgent with `max_iterations = N` executes
exactly `max N 1` think steps before entering the respond node, for every
sequence of model replies (the entry point of the workflow is the think
node, so one think step runs even when `N = 0`, and the first evaluation of
the continuation condition then moves to respond); the respond node runs
exactly once, appending exactly one assistant message to the conversation. -/
theorem c4_react_think_bound (maxIterations : Nat) (thinkReplies : Nat → String)
    (respondReply : String) (messages : List Msg) (fuel : Nat)
    (hfuel : maxIterations + 1 ≤ fuel) :
    react_think_count maxIterations thinkReplies messages fuel = some (max maxIterations 1)
    ∧ (react_run maxIterations thinkReplies respondReply messages fuel).map
        (fun p => (p.1.messages.length, p.2)) =
      some (messages.length + 1, max maxIterations 1) := by
  obtain ⟨sf, hloop, hmsg⟩ := react_loop_spec maxIterations thinkReplies fuel
    (react_initial_state messages) rfl (by simp [react_initial_state]; omega) (by omega)
  have hcount : (if maxIterations ≤ (react_initial_state messages).iterationCount + 1 then 1
      else maxIterations - (react_initial_state messages).iterationCount) =
      max maxIterations 1 := by
    simp only [react_initial_state]
    split <;> omega
  rw [hcount] at hloop
  have hmsg2 : sf.messages = messages := by simpa [react_initial_state] using hmsg
  constructor
  · simp [react_think_count, hloop]
  · simp [react_run, hloop, respond_node, hmsg2]

/-- C4 witness: three iterations on a constant reply stream. -/
theorem c4_react_think_bound_witness :
    react_think_count 3 constThinkReplies [] 4 = some (max 3 1)
    ∧ (react_run 3 constThinkReplies "ACTION: done" [] 4).map
        (fun p => (p.1.messages.length, p.2)) =
      some (List.length ([] : List Msg) + 1, max 3 1) :=
  c4_react_think_bound 3 constThinkReplies "ACTION: done" [] 4 (by decide)

/-- C4 counterexample: the claim says `max_iterations = 0` executes zero
think steps; the workflow enters at the think node, so one think step runs
before the conditional edge is first evaluated. -/
theorem c4_counterexample_zero_iterations :
    react_think_count 0 constThinkReplies [] 2 = some 1
    ∧ react_think_count 0 constThinkReplies [] 2 ≠ some 0 := by
  refine ⟨by decide, by decide⟩

/-! Claim C5: supervisor END decision. -/

/-- A worker list that builds cleanly contains no reserved langgraph node
name. -/
lemma supervisor_chain_ok_no_end (workers : List String)
    (h : supervisor_create_chain workers = .ok ()) :
    workers.contains langgraphEND = false := by
  unfold supervisor_create_chain at h
  by_cases h1 : (workers.contains "supervisor" || workers.contains langgraphSTART ||
      workers.contains langgraphEND) = true
  · rw [if_pos h1] at h
    exact absurd h (by simp)
  · simp only [Bool.or_eq_true, not_or, Bool.not_eq_true] at h1
    exact h1.2

/-- C5 (code bug): on a turn whose delegation reply parses to the worker END
(with no worker literally named "END"), or to a worker absent from the
worker list, zero worker delegations happen — but the turn does not end as
the terminal answer-directly case the claim describes: `_should_continue`
returns the langgraph `END` sentinel string, which is not a key of the path
map `{worker: worker} | {"END": END}`, so the branch resolution raises
`KeyError` and the turn fails before any worker node runs.  The dead
`{"END": END}` path-map entry and the `_should_continue` docstring (return
"either a worker agent key to delegate to, or END to finish") show the
author meant the string "END" to reach the path map; returning the sentinel
instead is the slip.  (Only when "END" is itself listed as a worker does
the decision "END" route gracefully to the terminal.) -/
theorem c5_supervisor_end_raises (reg : Registry) (workers : List String)
    (delegationReplies workerReplies : Nat → String) (messages : List Msg) (fuel : Nat)
    (hchain : supervisor_create_chain workers = .ok ()) (hfuel : 1 ≤ fuel)
    (hnoEnd : workers.contains "END" = false)
    (hdec : parseWorker (delegationReplies 0) = "END" ∨
      workers.contains (parseWorker (delegationReplies 0)) = false) :
    supervisor_turn reg workers delegationReplies workerReplies messages fuel =
      some (.error (.branchKeyError langgraphEND)) := by
  have hnoend := supervisor_chain_ok_no_end workers hchain
  have hnomem : ¬(workers.contains langgraphEND = true) := by
    rw [hnoend]
    exact Bool.false_ne_true
  have hne : ¬(langgraphEND = "END") := by decide
  obtain ⟨f, rfl⟩ : ∃ f, fuel = f + 1 := ⟨fuel - 1, by omega⟩
  have hend : supPathMapLookup workers langgraphEND = .keyError langgraphEND := by
    unfold supPathMapLookup
    rw [if_neg hne, if_neg hnomem]
  have hroute : supervisor_route workers (parseWorker (delegationReplies 0)) =
      .keyError langgraphEND := by
    unfold supervisor_route
    rcases hdec with hEnd | hNot
    · rw [hEnd]
      have hc : ¬(workers.contains "END" = true) := by
        rw [hnoEnd]
        exact Bool.false_ne_true
      unfold supShouldContinue
      rw [if_neg hc]
      exact hend
    · have hNot' : ¬(workers.contains (parseWorker (delegationReplies 0)) = true) := by
        rw [hNot]
        exact Bool.false_ne_true
      unfold supShouldContinue
      rw [if_neg hNot']
      exact hend
  unfold supervisor_turn
  rw [hchain]
  unfold supervisor_loop
  simp [hroute]

/-- C5 witness: a two-worker supervisor whose reply decides END raises the
branch `KeyError` with zero delegations performed. -/
theorem c5_supervisor_end_raises_witness :
    supervisor_turn [] ["researcher", "writer"] (fun _ => "WORKER: END\nREASON: all done")
        (fun _ => "") [⟨"user", "hello"⟩] 3 =
      some (.error (.branchKeyError langgraphEND)) :=
  c5_supervisor_end_raises [] ["researcher", "writer"]
    (fun _ => "WORKER: END\nREASON: all done") (fun _ => "") [⟨"user", "hello"⟩] 3
    (by decide) (by decide) (by decide) (Or.inl (by decide))

/-! Claim C6: graph routing dispatch. -/

/-- C6 (code bug): on the sub-agent list of the spec scenario, every
`respond` of the GraphAgent fails while building its workflow, for every
registry, conversation state and routing reply — so even a routing decision
that is a valid registry key never reaches its sub-agent.  The cause: the
conditional edge of `create_chain` is declared with the path map
`decisions`, built as `decisions[agent_key] = condition_text`, so langgraph
takes the condition texts (not the agent node names) as branch targets;
these match no declared node.  The earlier revision
src/src/workflows/condition_graph.py builds the same edge with node names
as the path-map values, and the spec scenario expects the decision key
itself to select the node, so the swap is a slip in graph_agent.py. -/
theorem c6_graph_routing_broken (reg : Registry) (state : GraphState) (resp : RespContent) :
    graph_respond reg c6Agents state resp = .error .graphBuildError := by
  have h : graph_create_chain c6Agents = .error .graphBuildError := by decide
  simp [graph_respond, h]

end Facilitator
